import Mathlib

/-!
Verification of the paginated archival fetch loop of
`reddit_scraper/download_subreddit_data.py` (class `ArchiveStream`,
class `CombinedArchiveStream`, function `validate_name`).

Shallow embedding conventions:
* Machine integers / JSON numbers are `Int` (`created_utc` is an integer
  number of seconds in the archival API).
* The Python float expression `0.5 * count**2 > 60` is embedded over `ℚ`
  (`(1/2 : ℚ) * n^2 > 60`); for the natural-number counter values that
  occur this is exact, since such products are representable exactly in
  both binary floating point and `ℚ`.
* Fallible code (`raise` / `except`) is embedded with `Except String`.
* The network is nondeterministic, so a run of the download loop is a
  function of the list of fetch outcomes it observes; each outcome is
  either `Except.ok page` (a successful `_fetch_data` call) or
  `Except.error msg` (the exception raised during that attempt).
* Wall-clock fields of `DownloadStats` (`start_time`, `running_time`,
  the `datetime` mirror `current_date`) and the printing of progress are
  real-time / presentation concerns and are not part of the state that
  the claims inspect; they are omitted from the embedded record.
* `time.sleep(n)` is recorded as data: a step reports the slept duration,
  and a run reports the list of sleeps in order.
-/

/-- An `Item` is a JSON object returned by the archival API.  The loop
inspects only `item.get("created_utc", 0)` (`none` models a missing key)
and otherwise forwards the record verbatim to the sink; `dumps` carries
the `json.dumps(item)` serialization of the full object. -/
structure Item where
  created_utc : Option Int
  dumps : String
deriving Repr, DecidableEq

/-- `json.dumps(item)`: the serialized form carried by the record. -/
def json_dumps (it : Item) : String :=
  it.dumps

/-- The fields of `DownloadStats` that the download loop reads or writes
(wall-clock fields omitted, see the file header). -/
structure DownloadStats where
  total_items : Nat := 0
  repeated_error_count : Nat := 0
  is_paused : Bool := false
  is_done : Bool := false
  has_error : Bool := false
deriving Repr, DecidableEq

/-- The mutable state of one `ArchiveStream` run: the cursor
(`self.current_date`, milliseconds since epoch), the stats record, and
the lines so far written to the open sink file (`file_handle`), one
serialized record per line. -/
structure StreamState where
  current_date : Int
  stats : DownloadStats
  file : List String
deriving Repr, DecidableEq

/-- `data[-1].get("created_utc", 0) * 1000`: the derived millisecond
timestamp of the last item of a page (0 is the Python default for a
missing key; the `getLastD` default is never reached on the non-empty
pages this is applied to). -/
def lastDerivedTs (data : List Item) : Int :=
  ((data.getLastD ⟨none, ""⟩).created_utc.getD 0) * 1000

/-- The abort test of the backoff logic:
`0.5 * (self.stats.repeated_error_count**2) > 60`, in exact arithmetic. -/
def backoff_abort (n : Nat) : Prop :=
  (1 / 2 : ℚ) * (n : ℚ) ^ 2 > 60

instance : DecidablePred backoff_abort := fun n =>
  decidable_of_iff (120 < n ^ 2) (by
    simp only [backoff_abort, gt_iff_lt]
    rw [show (1 / 2 : ℚ) * (n : ℚ) ^ 2 = (n : ℚ) ^ 2 / 2 by ring,
      lt_div_iff₀ (by norm_num : (0 : ℚ) < 2)]
    norm_num
    constructor <;> intro h <;> exact_mod_cast h)

/-- One iteration of the `while` loop body of `ArchiveStream._run`,
given the outcome of `self._fetch_data()` for this attempt.  Returns the
new state and `some n` when the iteration ends in `time.sleep(n)`.

Success, empty page: mark `is_done` and stop (nothing else changes).
Success, non-empty page: bump `total_items`, advance the cursor with the
millisecond tie-break, append the serialized items to the file, reset
`repeated_error_count`, clear `has_error`.
Exception: set `has_error`, bump `repeated_error_count`, then either
abort (`is_done := true`) when `0.5 * count² > 60` or sleep `count`
seconds. -/
def runStep (s : StreamState) (res : Except String (List Item)) :
    StreamState × Option Nat :=
  match res with
  | .ok data =>
    if data.isEmpty then
      ({ s with stats := { s.stats with is_done := true } }, none)
    else
      let new_date0 := lastDerivedTs data
      let new_date := if new_date0 = s.current_date then new_date0 + 1000 else new_date0
      ({ current_date := new_date,
         stats := { s.stats with
           total_items := s.stats.total_items + data.length,
           repeated_error_count := 0,
           has_error := false },
         file := s.file ++ data.map json_dumps }, none)
  | .error _ =>
    let n := s.stats.repeated_error_count + 1
    if backoff_abort n then
      ({ s with stats := { s.stats with
           has_error := true, repeated_error_count := n, is_done := true } }, none)
    else
      ({ s with stats := { s.stats with
           has_error := true, repeated_error_count := n } }, some n)

/-- The `while not self.stats.is_paused and not self.stats.is_done` loop
of `ArchiveStream._run`, driven by the list of fetch outcomes the run
observes (the loop stops either on the loop condition or because the
supplied outcome trace ends).  Also collects the sleeps performed, in
order. -/
def runList (s : StreamState) : List (Except String (List Item)) → StreamState × List Nat
  | [] => (s, [])
  | o :: rest =>
    if s.stats.is_paused || s.stats.is_done then (s, [])
    else
      let step := runStep s o
      let tail := runList step.1 rest
      (tail.1, step.2.toList ++ tail.2)

/-- The items of the successful fetches that the loop actually consumes
along an outcome trace, in the order received (a page after the loop has
stopped, and a page of a fetch that came back empty, contribute
nothing).  This is the observer against which the sink contents are
compared. -/
def itemsReceived (s : StreamState) : List (Except String (List Item)) → List Item
  | [] => []
  | o :: rest =>
    if s.stats.is_paused || s.stats.is_done then []
    else
      match o with
      | .ok data =>
        if data.isEmpty then []
        else data ++ itemsReceived (runStep s (.ok data)).1 rest
      | .error e => itemsReceived (runStep s (.error e)).1 rest

/-- The JSON body returned by an API endpoint: the optional `"error"`
field (a string when present) and the optional `"data"` field.  `none`
for `data` models both a missing key and an explicit `null` value (both
make `data.get("data", [])` fall through to the loop's emptiness /
`None` test with the same observable behaviour). -/
structure JsonBody (α : Type) where
  error : Option String
  data : Option α
deriving Repr, DecidableEq

/-- An HTTP response as `ArchiveStream._fetch_data` and `validate_name`
inspect it: status code, body text (used only in error messages), and
the parsed JSON body. -/
structure ApiResponse (α : Type) where
  status_code : Nat
  text : String
  json : JsonBody α
deriving Repr, DecidableEq

/-- Python truthiness of `body.get("error")` for an optional string
field: `None` (missing key) and the empty string are falsy. -/
def truthy : Option String → Bool
  | none => false
  | some s => !s.isEmpty

/-- `ArchiveStream._fetch_data`, as a function of the HTTP response the
network produced: raise on a non-200 status, raise on a truthy `"error"`
field, otherwise return `data.get("data", [])`. -/
def fetch_data (r : ApiResponse (List Item)) : Except String (List Item) :=
  if r.status_code ≠ 200 then
    .error ("API returned status code " ++ toString r.status_code ++ ": " ++ r.text)
  else if truthy r.json.error then
    .error ("API returned error: " ++ r.json.error.getD "")
  else
    .ok (r.json.data.getD [])

/-- The immutable configuration of an `ArchiveStream`, as set by
`__init__` (`self.current_date = start_date` seeds the cursor). -/
structure ArchiveStream where
  url : String
  start_date : Int
  output_file : String
  item_type : String
  append : Bool := false
deriving Repr, DecidableEq

/-- The state at the top of `_run`: `ArchiveStream.start` opens the
output file in mode `"a"` (keeping the `existing` lines) when
`self.append` is set and in mode `"w"` (truncating) otherwise, with the
cursor at `start_date` and fresh stats (`is_paused` cleared). -/
def ArchiveStream.initialState (a : ArchiveStream) (existing : List String) : StreamState :=
  { current_date := a.start_date,
    stats := { total_items := 0, repeated_error_count := 0,
               is_paused := false, is_done := false, has_error := false },
    file := if a.append then existing else [] }

/-- `ArchiveStream.start`: open the sink (truncate or append per
configuration) and run the download loop on it.  `existing` is the sink
content before the run; the fetch outcomes drive the loop.  (The
wall-clock `start_time` and the `KeyboardInterrupt` handler are
real-time concerns outside the embedding.) -/
def ArchiveStream.start (a : ArchiveStream) (existing : List String)
    (outcomes : List (Except String (List Item))) : StreamState × List Nat :=
  runList (a.initialState existing) outcomes

/-- `CombinedArchiveStream`: an optional posts stream and an optional
comments stream. -/
structure CombinedArchiveStream where
  posts_stream : Option ArchiveStream
  comments_stream : Option ArchiveStream

/-- `CombinedArchiveStream.start` runs the posts stream (when present)
to its terminal state, then the comments stream (when present),
sequentially and with no shared state; each component of the result is
the final state and sleep trace of the corresponding stream.  A stream's
`start` never raises: every fetch-level exception is consumed inside
`_run` (`runStep` is total on `Except` outcomes). -/
def CombinedArchiveStream.start (c : CombinedArchiveStream)
    (postsExisting : List String) (postsOutcomes : List (Except String (List Item)))
    (commentsExisting : List String) (commentsOutcomes : List (Except String (List Item))) :
    Option (StreamState × List Nat) × Option (StreamState × List Nat) :=
  (c.posts_stream.map (fun p => p.start postsExisting postsOutcomes),
   c.comments_stream.map (fun q => q.start commentsExisting commentsOutcomes))

/-- `DownloadType`: the entity kind being downloaded. -/
inductive DownloadType
  | SUBREDDIT
  | USER
deriving Repr, DecidableEq

/-- The query-parameter name of a `DownloadType` (its `.value`). -/
def DownloadType.value : DownloadType → String
  | .SUBREDDIT => "subreddit"
  | .USER => "author"

/-- The constant `API_URL`. -/
def API_URL : String := "https://arctic-shift.photon-reddit.com"

/-- A JSON object of the "search" endpoints, as an association list of
its fields (the caller only forwards it). -/
abbrev Info := List (String × String)

/-- `validate_name`, as a function of the two HTTP responses the network
would produce for its two GET requests.  Returns the outcome together
with the list of request URLs actually issued, in order, so that "no
network request is made" is observable.  The final conversion of the
returned ISO-8601 date string to a millisecond timestamp
(`datetime.fromisoformat(...).timestamp() * 1000`) is calendar
arithmetic outside the embedding: the raw date string is returned in its
place. -/
def validate_name (name : String) (download_type : DownloadType)
    (minResp : ApiResponse String) (infoResp : ApiResponse (List Info)) :
    Except String (String × Info) × List String :=
  if name.length < 2 then
    (.error "Name must be at least 2 characters long", [])
  else
    let minUrl := API_URL ++ "/api/utils/min?" ++ download_type.value ++ "=" ++ name
      ++ "&meta-app=download-tool-cli"
    if minResp.status_code ≠ 200 then
      (.error ("API returned status code " ++ toString minResp.status_code), [minUrl])
    else if truthy minResp.json.error then
      (.error ("API returned error: " ++ minResp.json.error.getD ""), [minUrl])
    else
      match minResp.json.data with
      | none => (.error ("No " ++ download_type.value ++ " with that name found"), [minUrl])
      | some dateString =>
        let infoUrl :=
          match download_type with
          | .SUBREDDIT => API_URL ++ "/api/subreddits/search?subreddit=" ++ name
              ++ "&meta-app=download-tool-cli"
          | .USER => API_URL ++ "/api/users/search?author=" ++ name
              ++ "&meta-app=download-tool-cli"
        if infoResp.status_code ≠ 200 then
          (.error ("API returned status code " ++ toString infoResp.status_code),
           [minUrl, infoUrl])
        else
          match (infoResp.json.data.getD [[]]).head? with
          | none => (.error "IndexError: list index out of range", [minUrl, infoUrl])
          | some info => (.ok (dateString, info), [minUrl, infoUrl])

/-! ## Helper lemmas -/

/-- In exact arithmetic, `0.5 * n² > 60` is the natural-number test
`n² > 120`. -/
theorem backoff_abort_iff_sq (n : Nat) : backoff_abort n ↔ 120 < n ^ 2 := by
  simp only [backoff_abort, gt_iff_lt]
  rw [show (1 / 2 : ℚ) * (n : ℚ) ^ 2 = (n : ℚ) ^ 2 / 2 by ring,
    lt_div_iff₀ (by norm_num : (0 : ℚ) < 2)]
  norm_num
  constructor <;> intro h <;> exact_mod_cast h

/-- The abort test holds exactly from the 11th consecutive failure on. -/
theorem backoff_abort_iff (n : Nat) : backoff_abort n ↔ 11 ≤ n := by
  rw [backoff_abort_iff_sq]
  constructor
  · intro h
    by_contra hle
    push_neg at hle
    have h10 : n ≤ 10 := by omega
    have := Nat.pow_le_pow_left h10 2
    omega
  · intro h
    have := Nat.pow_le_pow_left h 2
    omega

/-- A failure step never touches the sink. -/
theorem runStep_error_file (s : StreamState) (e : String) :
    ((runStep s (.error e)).1).file = s.file := by
  simp only [runStep]
  split <;> rfl

/-- A failure step never touches the item count. -/
theorem runStep_error_total (s : StreamState) (e : String) :
    ((runStep s (.error e)).1).stats.total_items = s.stats.total_items := by
  simp only [runStep]
  split <;> rfl

/-- A stopped loop consumes no items. -/
theorem itemsReceived_stopped (s : StreamState)
    (os : List (Except String (List Item)))
    (h : (s.stats.is_paused || s.stats.is_done) = true) :
    itemsReceived s os = [] := by
  cases os <;> simp [itemsReceived, h]

/-- Sink and item-count bookkeeping of a whole run: the final sink is
the initial sink followed by exactly the serialized items of the
successful fetches the loop consumed, in order, and the item counter
grows by their number. -/
theorem runList_bookkeeping (os : List (Except String (List Item))) :
    ∀ s : StreamState,
      ((runList s os).1).file = s.file ++ (itemsReceived s os).map json_dumps ∧
      ((runList s os).1).stats.total_items
        = s.stats.total_items + (itemsReceived s os).length := by
  induction os with
  | nil =>
    intro s
    simp [runList, itemsReceived]
  | cons o rest ih =>
    intro s
    by_cases hstop : (s.stats.is_paused || s.stats.is_done) = true
    · simp [runList, itemsReceived, hstop]
    · rw [Bool.not_eq_true] at hstop
      cases o with
      | ok data =>
        by_cases hemp : data.isEmpty
        · have hnil : data = [] := List.isEmpty_iff.mp hemp
          subst hnil
          have hdone : ((runStep s (.ok [])).1).stats.is_done = true := rfl
          have hstopped : (((runStep s (.ok [])).1).stats.is_paused
              || ((runStep s (.ok [])).1).stats.is_done) = true := by
            simp [hdone]
          obtain ⟨hf, ht⟩ := ih (runStep s (.ok [])).1
          simp only [runList, itemsReceived, hstop, Bool.false_eq_true, if_false]
          rw [itemsReceived_stopped _ _ hstopped] at hf ht
          rw [show ((runStep s (.ok [])).1).file = s.file from rfl] at hf
          rw [show ((runStep s (.ok [])).1).stats.total_items
              = s.stats.total_items from rfl] at ht
          simp only [List.isEmpty_nil, if_true, List.map_nil, List.append_nil,
            List.length_nil, Nat.add_zero] at hf ht ⊢
          exact ⟨hf, ht⟩
        · obtain ⟨hf, ht⟩ := ih (runStep s (.ok data)).1
          have hfile : ((runStep s (.ok data)).1).file = s.file ++ data.map json_dumps := by
            simp [runStep, hemp]
          have htot : ((runStep s (.ok data)).1).stats.total_items
              = s.stats.total_items + data.length := by
            simp [runStep, hemp]
          simp only [runList, itemsReceived, hstop, Bool.false_eq_true, if_false, hemp,
            if_false]
          constructor
          · rw [hf, hfile]
            simp [List.append_assoc]
          · rw [ht, htot, List.length_append]
            omega
      | error e =>
        obtain ⟨hf, ht⟩ := ih (runStep s (.error e)).1
        simp only [runList, itemsReceived, hstop, Bool.false_eq_true, if_false]
        rw [hf, ht, runStep_error_file, runStep_error_total]
        exact ⟨rfl, rfl⟩

/-! ## Claims -/

/-- C1 (counterexample): with cursor 500000 and a page of two items both
deriving timestamp 500000 (`created_utc = 500`), the new cursor is
501000 — one second ahead — and not the old cursor plus 1 millisecond as
the claim states. -/
theorem tie_break_not_one_ms :
    (runStep ⟨500000, {}, []⟩
        (Except.ok [⟨some 500, "x"⟩, ⟨some 500, "x"⟩])).1.current_date = 501000 ∧
    (runStep ⟨500000, {}, []⟩
        (Except.ok [⟨some 500, "x"⟩, ⟨some 500, "x"⟩])).1.current_date ≠ 500000 + 1 := by
  decide

/-- C1 (amended): for every successful non-empty fetch whose last item's
derived timestamp equals the current cursor exactly, the new cursor is
the old cursor plus exactly 1000 milliseconds (one second). -/
theorem tie_break_adds_1000_ms (s : StreamState) (data : List Item)
    (hne : data ≠ []) (heq : lastDerivedTs data = s.current_date) :
    (runStep s (Except.ok data)).1.current_date = s.current_date + 1000 := by
  have hemp : data.isEmpty = false := by
    simpa [List.isEmpty_iff] using hne
  simp [runStep, hemp, heq]

/-- C1 (witness): the amended tie-break at a concrete input. -/
theorem tie_break_adds_1000_ms_witness :
    ([(⟨some 500, "x"⟩ : Item)] ≠ []) ∧
    lastDerivedTs [⟨some 500, "x"⟩] = (⟨500000, {}, []⟩ : StreamState).current_date ∧
    (runStep ⟨500000, {}, []⟩ (Except.ok [⟨some 500, "x"⟩])).1.current_date
      = (⟨500000, {}, []⟩ : StreamState).current_date + 1000 :=
  ⟨by decide, by decide,
    tie_break_adds_1000_ms ⟨500000, {}, []⟩ [⟨some 500, "x"⟩] (by decide) (by decide)⟩

/-- C2 (counterexample): a stream whose error flag is set and whose
consecutive-failure counter is 2 from earlier failed attempts, upon a
successful empty fetch, ends done with the error flag STILL SET — the
empty-page branch breaks out of the loop before the code that clears the
flag. -/
theorem empty_page_keeps_error_flag :
    (runStep ⟨0, ⟨5, 2, false, false, true⟩, []⟩ (Except.ok [])).1.stats.is_done = true ∧
    (runStep ⟨0, ⟨5, 2, false, false, true⟩, []⟩ (Except.ok [])).1.stats.has_error = true := by
  decide

/-- C2 (amended): for every stream state, a fetch that succeeds with an
empty page transitions the stream to done without sleeping, but leaves
the error flag exactly as it was: a stream with no prior error ends done
with no error flag, while prior failure history is carried into the
terminal state unchanged. -/
theorem empty_page_completion (s : StreamState) :
    (runStep s (Except.ok [])).1.stats.is_done = true ∧
    (runStep s (Except.ok [])).1.stats.has_error = s.stats.has_error ∧
    (runStep s (Except.ok [])).2 = none :=
  ⟨rfl, rfl, rfl⟩

/-- C3 (counterexample): a successful fetch that returns an empty page
does NOT reset the consecutive-failure counter: from a state with
counter 3 it stays 3, not 0. -/
theorem empty_page_keeps_counter :
    (runStep ⟨0, ⟨7, 3, false, false, true⟩, []⟩ (Except.ok [])).1.stats.repeated_error_count
      = 3 := by
  decide

/-- C3 (amended): after every successful NON-EMPTY fetch the
consecutive-failure counter is reset to zero and the error flag is
cleared; a successful empty fetch leaves both untouched (as
`empty_page_keeps_counter` shows). -/
theorem success_resets_backoff (s : StreamState) (data : List Item) (hne : data ≠ []) :
    (runStep s (Except.ok data)).1.stats.repeated_error_count = 0 ∧
    (runStep s (Except.ok data)).1.stats.has_error = false := by
  have hemp : data.isEmpty = false := by
    simpa [List.isEmpty_iff] using hne
  simp [runStep, hemp]

/-- C3 (witness): the amended reset property at a concrete input. -/
theorem success_resets_backoff_witness :
    ([(⟨some 9, "y"⟩ : Item)] ≠ []) ∧
    (runStep ⟨0, ⟨7, 3, false, false, true⟩, []⟩
        (Except.ok [⟨some 9, "y"⟩])).1.stats.repeated_error_count = 0 ∧
    (runStep ⟨0, ⟨7, 3, false, false, true⟩, []⟩
        (Except.ok [⟨some 9, "y"⟩])).1.stats.has_error = false :=
  ⟨by decide,
    (success_resets_backoff ⟨0, ⟨7, 3, false, false, true⟩, []⟩ [⟨some 9, "y"⟩] (by decide)).1,
    (success_resets_backoff ⟨0, ⟨7, 3, false, false, true⟩, []⟩ [⟨some 9, "y"⟩] (by decide)).2⟩

/-- C4: on every fetch failure the consecutive-failure counter `n` is
incremented (and the error flag set); if `0.5 · n² > 60` the stream
aborts — done with the error flag set and no sleep — and otherwise it
sleeps exactly `n` seconds without terminating.  The threshold fires
exactly at `n = 11`, so a fresh stream hit by 11 consecutive failures
sleeps 1,2,…,10 seconds (55 seconds of cumulative backoff) and the 11th
failure aborts it with done and error set. -/
theorem backoff_policy (s : StreamState) (e : String) :
    (runStep s (Except.error e)).1.stats.repeated_error_count
      = s.stats.repeated_error_count + 1 ∧
    (runStep s (Except.error e)).1.stats.has_error = true ∧
    (backoff_abort (s.stats.repeated_error_count + 1) →
      (runStep s (Except.error e)).1.stats.is_done = true ∧
      (runStep s (Except.error e)).2 = none) ∧
    (¬ backoff_abort (s.stats.repeated_error_count + 1) →
      (runStep s (Except.error e)).2 = some (s.stats.repeated_error_count + 1) ∧
      (runStep s (Except.error e)).1.stats.is_done = s.stats.is_done) ∧
    (∀ m : Nat, backoff_abort m ↔ 11 ≤ m) ∧
    (runList ⟨0, {}, []⟩ (List.replicate 11 (Except.error "err"))).2
      = [1, 2, 3, 4, 5, 6, 7, 8, 9, 10] ∧
    ((runList ⟨0, {}, []⟩ (List.replicate 11 (Except.error "err"))).2).sum = 55 ∧
    (runList ⟨0, {}, []⟩ (List.replicate 11 (Except.error "err"))).1.stats.is_done = true ∧
    (runList ⟨0, {}, []⟩ (List.replicate 11 (Except.error "err"))).1.stats.has_error = true := by
  refine ⟨?_, ?_, ?_, ?_, backoff_abort_iff, by decide, by decide, by decide, by decide⟩
  · simp only [runStep]
    split <;> rfl
  · simp only [runStep]
    split <;> rfl
  · intro hb
    simp [runStep, hb]
  · intro hb
    simp [runStep, hb]

/-- C4 (witness): the 10th failure of a stream (counter 9) sleeps 10
seconds; the 11th (counter 10) aborts with done and error set. -/
theorem backoff_policy_witness :
    (¬ backoff_abort 10 ∧
      (runStep ⟨0, ⟨0, 9, false, false, true⟩, []⟩ (Except.error "boom")).2 = some 10) ∧
    (backoff_abort 11 ∧
      (runStep ⟨0, ⟨0, 10, false, false, true⟩, []⟩ (Except.error "boom")).1.stats.is_done
        = true) :=
  ⟨⟨by decide,
    ((backoff_policy ⟨0, ⟨0, 9, false, false, true⟩, []⟩ "boom").2.2.2.1 (by decide)).1⟩,
   ⟨by decide,
    ((backoff_policy ⟨0, ⟨0, 10, false, false, true⟩, []⟩ "boom").2.2.1 (by decide)).1⟩⟩

/-- C5 (counterexample): a successful fetch can DECREASE the cursor:
with cursor 500000, a page whose single item has no `created_utc` field
derives timestamp 0, and the new cursor is 0 < 500000. -/
theorem cursor_can_decrease :
    ¬ ((⟨500000, {}, []⟩ : StreamState).current_date
        ≤ (runStep ⟨500000, {}, []⟩ (Except.ok [⟨none, "a"⟩])).1.current_date) := by
  decide

/-- C5 (amended): across a successful fetch the cursor never decreases
PROVIDED the page is empty or its last item's derived timestamp is at
least the current cursor (which the ascending, after-cursor query
requests from the API); an item timestamped below the cursor — e.g. a
missing `created_utc` defaulting to 0 — strictly decreases it. -/
theorem cursor_monotone (s : StreamState) (data : List Item)
    (h : data = [] ∨ s.current_date ≤ lastDerivedTs data) :
    s.current_date ≤ (runStep s (Except.ok data)).1.current_date := by
  rcases h with h | h
  · subst h
    exact le_refl _
  · by_cases hemp : data.isEmpty
    · rw [List.isEmpty_iff.mp hemp]
      exact le_refl _
    · rw [Bool.not_eq_true] at hemp
      simp only [runStep, hemp, Bool.false_eq_true, if_false]
      split
      · omega
      · exact h

/-- C5 (witness): the amended monotonicity at a concrete input (cursor
100000, last item timestamped 200000). -/
theorem cursor_monotone_witness :
    (([(⟨some 200, "z"⟩ : Item)] = [] ∨
        (⟨100000, {}, []⟩ : StreamState).current_date ≤ lastDerivedTs [⟨some 200, "z"⟩]) ∧
      (⟨100000, {}, []⟩ : StreamState).current_date
        ≤ (runStep ⟨100000, {}, []⟩ (Except.ok [⟨some 200, "z"⟩])).1.current_date) :=
  ⟨Or.inr (by decide),
    cursor_monotone ⟨100000, {}, []⟩ [⟨some 200, "z"⟩] (Or.inr (by decide))⟩

/-- C6: for every run of a stream, after any prefix of fetch outcomes
the sink holds exactly its prior content followed by the items of all
successful fetches consumed so far, serialized one record per line in
the order received, and the total item counter grows by exactly the sum
of those page sizes. -/
theorem sink_holds_exactly_received_items (s : StreamState)
    (os : List (Except String (List Item))) :
    (runList s os).1.file = s.file ++ (itemsReceived s os).map json_dumps ∧
    (runList s os).1.stats.total_items
      = s.stats.total_items + (itemsReceived s os).length :=
  runList_bookkeeping os s

/-- C7: starting a stream run with `append = true` on a
previously-populated sink preserves every existing line and writes the
run's records after them; with `append = false` (the default) the sink
is truncated to empty before the first write, so the final sink is the
run's records alone. -/
theorem append_mode_boundary (a : ArchiveStream) (existing : List String)
    (os : List (Except String (List Item))) :
    ((a.start existing os).1).file
      = (if a.append then existing else [])
        ++ (itemsReceived (a.initialState existing) os).map json_dumps := by
  have h := (runList_bookkeeping os (a.initialState existing)).1
  rw [ArchiveStream.start, h]
  rfl

/-- C8: the coordinator runs the posts stream and then the comments
stream in sequence; a posts run that ends aborted with the error flag
set (fetch-level errors are consumed inside the loop, which is total on
fetch outcomes, so no exception reaches the coordinator) is recorded in
the first component, and the comments stream still runs to exactly the
terminal state of its own independent run. -/
theorem coordinator_isolates_failures (p q : ArchiveStream)
    (pe ce : List String) (pos cos : List (Except String (List Item)))
    (h : ((p.start pe pos).1).stats.is_done = true ∧
      ((p.start pe pos).1).stats.has_error = true) :
    (CombinedArchiveStream.start ⟨some p, some q⟩ pe pos ce cos).1 = some (p.start pe pos) ∧
    (CombinedArchiveStream.start ⟨some p, some q⟩ pe pos ce cos).2 = some (q.start ce cos) :=
  ⟨rfl, rfl⟩

/-- C8 (witness): a posts stream aborted by 11 consecutive fetch
failures does not keep the comments stream from running to its own
completed terminal state. -/
theorem coordinator_isolates_failures_witness :
    ((((ArchiveStream.mk "pu" 0 "p.jsonl" "Posts" false).start []
          (List.replicate 11 (Except.error "boom"))).1).stats.is_done = true ∧
      (((ArchiveStream.mk "pu" 0 "p.jsonl" "Posts" false).start []
          (List.replicate 11 (Except.error "boom"))).1).stats.has_error = true) ∧
    (CombinedArchiveStream.start
        ⟨some (ArchiveStream.mk "pu" 0 "p.jsonl" "Posts" false),
         some (ArchiveStream.mk "cu" 0 "c.jsonl" "Comments" false)⟩
        [] (List.replicate 11 (Except.error "boom")) [] [Except.ok []]).2
      = some ((ArchiveStream.mk "cu" 0 "c.jsonl" "Comments" false).start [] [Except.ok []]) ∧
    (((ArchiveStream.mk "cu" 0 "c.jsonl" "Comments" false).start []
        [Except.ok []]).1).stats.is_done = true ∧
    (((ArchiveStream.mk "cu" 0 "c.jsonl" "Comments" false).start []
        [Except.ok []]).1).stats.has_error = false :=
  ⟨⟨by decide, by decide⟩,
   (coordinator_isolates_failures
      (ArchiveStream.mk "pu" 0 "p.jsonl" "Posts" false)
      (ArchiveStream.mk "cu" 0 "c.jsonl" "Comments" false)
      [] [] (List.replicate 11 (Except.error "boom")) [Except.ok []]
      ⟨by decide, by decide⟩).2,
   by decide, by decide⟩

/-- C9: a 200 response whose JSON body has no `error` field and no
`data` field makes `_fetch_data` return the empty list, which the loop
takes as the completion signal: from a state with no error flagged, the
stream ends done, with no error flag and no failure-counter increment —
the malformed response is not treated as a failure to retry. -/
theorem malformed_body_completes (r : ApiResponse (List Item)) (s : StreamState)
    (hstatus : r.status_code = 200) (herr : r.json.error = none)
    (hdata : r.json.data = none) (hclean : s.stats.has_error = false) :
    fetch_data r = Except.ok [] ∧
    (runStep s (Except.ok [])).1.stats.is_done = true ∧
    (runStep s (Except.ok [])).1.stats.has_error = false ∧
    (runStep s (Except.ok [])).1.stats.repeated_error_count
      = s.stats.repeated_error_count := by
  refine ⟨?_, rfl, hclean, rfl⟩
  simp [fetch_data, hstatus, herr, hdata, truthy]

/-- C9 (witness): the malformed-body completion at a concrete response
and state. -/
theorem malformed_body_completes_witness :
    fetch_data ⟨200, "", ⟨none, none⟩⟩ = Except.ok [] ∧
    (runStep ⟨0, {}, []⟩ (Except.ok [])).1.stats.is_done = true ∧
    (runStep ⟨0, {}, []⟩ (Except.ok [])).1.stats.has_error = false :=
  ⟨(malformed_body_completes ⟨200, "", ⟨none, none⟩⟩ ⟨0, {}, []⟩ rfl rfl rfl rfl).1,
   (malformed_body_completes ⟨200, "", ⟨none, none⟩⟩ ⟨0, {}, []⟩ rfl rfl rfl rfl).2.1,
   (malformed_body_completes ⟨200, "", ⟨none, none⟩⟩ ⟨0, {}, []⟩ rfl rfl rfl rfl).2.2.1⟩

/-- C10: for every name shorter than 2 characters, `validate_name`
raises `ValueError` immediately and the list of requests issued is
empty: the archival API is never contacted for such names. -/
theorem short_name_never_contacts_api (name : String) (download_type : DownloadType)
    (minResp : ApiResponse String) (infoResp : ApiResponse (List Info))
    (h : name.length < 2) :
    validate_name name download_type minResp infoResp
      = (Except.error "Name must be at least 2 characters long", []) := by
  simp [validate_name, h]

/-- C10 (witness): the one-character name "a" is rejected with no
request issued. -/
theorem short_name_never_contacts_api_witness :
    ("a".length < 2) ∧
    validate_name "a" DownloadType.SUBREDDIT ⟨200, "", ⟨none, some "2020-01-01"⟩⟩
        ⟨200, "", ⟨none, some [[]]⟩⟩
      = (Except.error "Name must be at least 2 characters long", []) :=
  ⟨by decide,
    short_name_never_contacts_api "a" DownloadType.SUBREDDIT
      ⟨200, "", ⟨none, some "2020-01-01"⟩⟩ ⟨200, "", ⟨none, some [[]]⟩⟩ (by decide)⟩
